import Mathlib

/-!
# Verification of the speech-transcription session core (stt_whisper_cli.py)

Shallow embedding of the recording/transcription session core:

* `Recorder` embeds the Python `Recorder` class (fields `recording`,
  `audio_data`, `_start_time`, plus a `streamRunning` flag standing for the
  open sounddevice stream).  The ambient wall clock (`time()`) is passed in
  explicitly as an integer parameter; audio samples are modelled as `Int`.
* `FS` embeds the visible filesystem as a map from paths to file contents
  plus a set of directories.  `FPath` keeps the directory, stem and suffix
  of a path separately so that `Path.with_suffix` and `Path.parent` have
  direct counterparts.
* `RecogResult` is the oracle for one run of the external `whisper` process:
  its exit code, its stderr text, and the text artifact it writes (if any)
  to the same-stem `.txt` path in the output directory.
* `transcribe` embeds the Python `transcribe` function: it applies the
  recognizer's filesystem effect, then follows the source line by line
  (non-zero exit prints a diagnostic and returns ""; otherwise the `.txt`
  artifact is read, stripped, unlinked and returned, or "" if absent).
  It returns the text, the resulting filesystem, and the list of stderr
  diagnostics it printed.
* `save_transcription` embeds the Python `save_transcription` (timestamp
  passed in explicitly, since `datetime.now()` is ambient).
* `cycle` embeds one iteration of the `while True` loop body of `main`
  (arm, deliver chunks, disarm, empty check, temp-file write, gateway call,
  unlink, clipboard/log update), producing the new recorder, session state,
  filesystem and the list of observable events of that iteration.
* `runCycles` runs the loop over a list of per-cycle inputs.
-/

namespace STT

/-- One recorded audio chunk: the samples delivered in one callback. -/
abbrev Chunk := List Int

/-- The `Recorder` class state.  `start_time` is `_start_time` (0 before the
first arm, as in `__init__`); `streamRunning` stands for the sounddevice
stream being open and started. -/
structure Recorder where
  samplerate : Int
  recording : Bool
  audio_data : List Chunk
  start_time : Int
  streamRunning : Bool
deriving DecidableEq

/-- `Recorder.__init__`: samplerate from the device, not recording, empty
buffer, zero start time. -/
def Recorder.init (sr : Int) : Recorder :=
  { samplerate := sr
    recording := false
    audio_data := []
    start_time := 0
    streamRunning := false }

/-- `Recorder.start`: clears the buffer, sets the recording flag, records the
arm timestamp (the ambient `time()` is the explicit `now` argument) and
starts a fresh input stream.  Note the source does all of this
unconditionally, with no already-armed check. -/
def Recorder.start (r : Recorder) (now : Int) : Recorder :=
  { r with
    audio_data := []
    recording := true
    start_time := now
    streamRunning := true }

/-- `Recorder._callback`: while the recording flag is set, append the
delivered chunk to the buffer; otherwise drop it. -/
def Recorder.callback (r : Recorder) (indata : Chunk) : Recorder :=
  if r.recording then { r with audio_data := r.audio_data ++ [indata] } else r

/-- `Recorder.elapsed`: the source tests the truthiness of `_start_time`
(non-zero), not the recording flag. -/
def Recorder.elapsed (r : Recorder) (now : Int) : Int :=
  if r.start_time ≠ 0 then now - r.start_time else 0

/-- `Recorder.stop`: clear the recording flag, stop and close the stream,
and return the concatenation of the buffered chunks (an empty array if the
buffer is empty).  The buffer itself is not cleared (the next `start` does
that), and `_start_time` is not reset. -/
def Recorder.stop (r : Recorder) : List Int × Recorder :=
  let r' := { r with recording := false, streamRunning := false }
  if r'.audio_data ≠ [] then (r'.audio_data.flatten, r') else ([], r')

/-- Deliver a sequence of chunks to the callback, in order (the audio
backend's thread interleaving is serialized into this delivery order). -/
def deliverAll (r : Recorder) (chunks : List Chunk) : Recorder :=
  chunks.foldl Recorder.callback r

/-- A filesystem path, with `pathlib`'s `with_suffix` and `parent`
operations available structurally. -/
structure FPath where
  dir : String
  stem : String
  suffix : String
deriving DecidableEq

/-- `Path.with_suffix`: replace the suffix, keep directory and stem. -/
def FPath.withSuffix (p : FPath) (s : String) : FPath := { p with suffix := s }

/-- `Path.parent`. -/
def FPath.parent (p : FPath) : String := p.dir

/-- The visible filesystem: file contents by path, and the set of existing
directories. -/
structure FS where
  files : FPath → Option String
  dirs : String → Bool

/-- The empty filesystem. -/
def FS.empty : FS := ⟨fun _ => none, fun _ => false⟩

/-- `Path.read_text` (as an option: `none` when the file does not exist). -/
def FS.read? (fs : FS) (p : FPath) : Option String := fs.files p

/-- Writing (or overwriting) a whole file. -/
def FS.write (fs : FS) (p : FPath) (c : String) : FS :=
  ⟨fun q => if q = p then some c else fs.files q, fs.dirs⟩

/-- `Path.unlink`. -/
def FS.unlink (fs : FS) (p : FPath) : FS :=
  ⟨fun q => if q = p then none else fs.files q, fs.dirs⟩

/-- `Path.exists` for files. -/
def FS.existsFile (fs : FS) (p : FPath) : Bool := (fs.files p).isSome

/-- `Path.exists` for directories. -/
def FS.dirExists (fs : FS) (d : String) : Bool := fs.dirs d

/-- `Path.mkdir(parents=True, exist_ok=True)` on a directory path. -/
def FS.mkdirParents (fs : FS) (d : String) : FS :=
  ⟨fs.files, fun e => if e = d then true else fs.dirs e⟩

/-- Oracle for one run of the external recognizer process
(`subprocess.run(["whisper", ...])`): exit code, captured stderr, and the
text artifact it writes to the same-stem `.txt` path in the output
directory (`none` when it produces no artifact). -/
structure RecogResult where
  returncode : Int
  stderr : String
  output : Option String
deriving DecidableEq

/-- Python's `str.strip()`: drop whitespace from both ends of the string. -/
def strip (s : String) : String :=
  String.mk (((s.data.dropWhile Char.isWhitespace).reverse.dropWhile
    Char.isWhitespace).reverse)

/-- The `transcribe` function.  The recognizer's effect (writing its `.txt`
artifact next to the audio file, since `--output_dir` is the audio file's
parent) happens first; then the source's control flow: non-zero exit prints
`Whisper error: <stderr>` and returns `""`; otherwise the same-stem `.txt`
file is read, stripped, unlinked and its text returned, or `""` is returned
if it does not exist.  Result: (returned text, filesystem after the call,
stderr diagnostics printed by the call). -/
def transcribe (fs : FS) (audio_path : FPath) (model : String) (lang : String)
    (r : RecogResult) : String × FS × List String :=
  let fs1 := match r.output with
    | some c => fs.write (audio_path.withSuffix ".txt") c
    | none => fs
  if r.returncode ≠ 0 then
    ("", fs1, ["Whisper error: " ++ r.stderr])
  else
    let txt_path := audio_path.withSuffix ".txt"
    match fs1.read? txt_path with
    | some content => (strip content, fs1.unlink txt_path, [])
    | none => ("", fs1, [])

/-- The record format written by `save_transcription`. -/
def logRecord (timestamp text : String) : String :=
  "[" ++ timestamp ++ "]\n" ++ text ++ "\n\n"

/-- The `save_transcription` function: create the parent directory if it
does not exist, then append the timestamped record (mode "a" creates the
file when absent).  The ambient `datetime.now()` timestamp is passed in. -/
def save_transcription (text : String) (output_fp : FPath) (timestamp : String)
    (fs : FS) : FS :=
  let fs1 := if fs.dirExists output_fp.parent then fs
    else fs.mkdirParents output_fp.parent
  fs1.write output_fp (((fs1.read? output_fp).getD "") ++ logRecord timestamp text)

/-- The session configuration parsed from the command line. -/
structure Config where
  model : String
  lang : String
  append : Bool
  output : Option FPath
deriving DecidableEq

/-- The mutable session state of `main`: the `session_transcripts` list and
the clipboard contents (`pbcopy` replaces the clipboard wholesale). -/
structure SessionState where
  transcripts : List String
  clipboard : String
deriving DecidableEq

/-- Observable events of one loop iteration. -/
inductive Event where
  | printed (s : String)
  | printedErr (s : String)
  | tempWritten (p : FPath)
  | transcribeCalled (p : FPath)
  | copied (s : String)
  | savedLog (p : FPath)
deriving DecidableEq

/-- The per-iteration inputs of the loop body that come from outside the
program: the chunks the audio backend delivers between the two keystrokes,
the recognizer run's outcome, the fresh temporary file path chosen by
`tempfile.NamedTemporaryFile(suffix=".wav")`, the arm-time clock reading,
and the `datetime.now()` timestamp used for the log record. -/
structure CycleInput where
  chunks : List Chunk
  recog : RecogResult
  tempPath : FPath
  tStart : Int
  timestamp : String

/-- The result of one loop iteration. -/
structure CycleOut where
  recorder : Recorder
  st : SessionState
  fs : FS
  events : List Event

/-- Serialization of the captured audio into the temporary wav file
(`sf.write`); only the file's existence is ever observed. -/
def wavContent (audio : List Int) : String := toString audio

/-- One iteration of the `while True` loop body of `main`:
arm the recorder, let the backend deliver the chunks, disarm and drain;
if no samples were captured print `No audio detected!` and continue;
otherwise write the temporary wav file, call `transcribe`, unlink the
temporary file; if the text is empty print the failure message, else
update the transcripts/clipboard per the append flag and append to the
log file when one is configured. -/
def cycle (cfg : Config) (rc : Recorder) (st : SessionState) (fs : FS)
    (inp : CycleInput) : CycleOut :=
  let stopRes := Recorder.stop (deliverAll (Recorder.start rc inp.tStart) inp.chunks)
  let audio := stopRes.1
  let r3 := stopRes.2
  if audio.length = 0 then
    ⟨r3, st, fs, [.printed "No audio detected!"]⟩
  else
    let fs1 := fs.write inp.tempPath (wavContent audio)
    let tres := transcribe fs1 inp.tempPath cfg.model cfg.lang inp.recog
    let text := tres.1
    let fs3 := (tres.2.1).unlink inp.tempPath
    let ev0 := [Event.tempWritten inp.tempPath, Event.transcribeCalled inp.tempPath]
      ++ tres.2.2.map Event.printedErr
    if text = "" then
      ⟨r3, st, fs3, ev0 ++ [.printed "Transcription failed or no content!"]⟩
    else
      let transcripts1 := if cfg.append then st.transcripts ++ [text] else st.transcripts
      let clip := if cfg.append then String.intercalate "\n" transcripts1 else text
      let fs4 := match cfg.output with
        | some o => save_transcription text o inp.timestamp fs3
        | none => fs3
      ⟨r3, ⟨transcripts1, clip⟩, fs4,
        ev0 ++ [.copied clip] ++ (match cfg.output with
          | some o => [.savedLog o]
          | none => [])⟩

/-- The session loop over a list of per-cycle inputs (the loop itself only
ends on the external `KeyboardInterrupt`, so every provided cycle is
processed).  Returns the final session state, the final filesystem and the
event trace of each iteration. -/
def runCycles (cfg : Config) : Recorder → SessionState → FS → List CycleInput →
    SessionState × FS × List (List Event)
  | _, st, fs, [] => (st, fs, [])
  | rc, st, fs, inp :: rest =>
    let o := cycle cfg rc st fs inp
    let (st', fs', tr) := runCycles cfg o.recorder o.st o.fs rest
    (st', fs', o.events :: tr)

/-! ## Basic lemmas about the filesystem and the recorder -/

/-- Reading back a freshly written file. -/
@[simp]
theorem FS.read?_write_self (fs : FS) (p : FPath) (c : String) :
    (fs.write p c).read? p = some c := by
  simp [FS.write, FS.read?]

/-- Writing one file leaves every other file unchanged. -/
theorem FS.read?_write_ne (fs : FS) (p q : FPath) (c : String) (h : q ≠ p) :
    (fs.write p c).read? q = fs.read? q := by
  simp [FS.write, FS.read?, h]

/-- An unlinked file no longer exists. -/
@[simp]
theorem FS.read?_unlink_self (fs : FS) (p : FPath) :
    (fs.unlink p).read? p = none := by
  simp [FS.unlink, FS.read?]

/-- Unlinking one file leaves every other file unchanged. -/
theorem FS.read?_unlink_ne (fs : FS) (p q : FPath) (h : q ≠ p) :
    (fs.unlink p).read? q = fs.read? q := by
  simp [FS.unlink, FS.read?, h]

/-- File existence is the defined presence of its contents. -/
theorem FS.existsFile_eq (fs : FS) (p : FPath) :
    fs.existsFile p = (fs.read? p).isSome := rfl

/-- Writing a file does not change the directory set. -/
@[simp]
theorem FS.dirs_write (fs : FS) (p : FPath) (c : String) :
    (fs.write p c).dirs = fs.dirs := rfl

/-- Unlinking a file does not change the directory set. -/
@[simp]
theorem FS.dirs_unlink (fs : FS) (p : FPath) :
    (fs.unlink p).dirs = fs.dirs := rfl

/-- Changing the suffix to a different one yields a different path. -/
theorem FPath.withSuffix_ne (p : FPath) (s : String) (h : p.suffix ≠ s) :
    p.withSuffix s ≠ p := by
  intro he
  have h2 : (p.withSuffix s).suffix = p.suffix := by rw [he]
  simp only [FPath.withSuffix] at h2
  exact h h2.symm

/-- Delivering chunks to an armed recorder appends them in order. -/
theorem deliverAll_recording (chunks : List Chunk) :
    ∀ (r : Recorder), r.recording = true →
      deliverAll r chunks = { r with audio_data := r.audio_data ++ chunks } := by
  induction chunks with
  | nil => intro r _; simp [deliverAll]
  | cons c cs ih =>
      intro r h
      have hc : Recorder.callback r c = { r with audio_data := r.audio_data ++ [c] } := by
        simp [Recorder.callback, h]
      have step : deliverAll r (c :: cs) = deliverAll (Recorder.callback r c) cs := rfl
      rw [step, hc, ih { r with audio_data := r.audio_data ++ [c] } h]
      simp

/-- Arming, delivering the chunks and disarming: the drained buffer is the
concatenation of the chunks, the recording flag ends cleared, the start
time keeps the arm timestamp and the buffer keeps the chunks. -/
theorem stop_deliver_start (rc : Recorder) (t : Int) (chunks : List Chunk) :
    Recorder.stop (deliverAll (Recorder.start rc t) chunks) =
      (chunks.flatten,
       { samplerate := rc.samplerate, recording := false, audio_data := chunks,
         start_time := t, streamRunning := false }) := by
  have hd := deliverAll_recording chunks (Recorder.start rc t) (by simp [Recorder.start])
  rw [hd]
  by_cases h : chunks = []
  · subst h; simp [Recorder.stop, Recorder.start]
  · simp [Recorder.stop, Recorder.start, h]

/-- The loop processes every provided cycle: one event trace per input. -/
theorem runCycles_trace_length (cfg : Config) :
    ∀ (inps : List CycleInput) (rc : Recorder) (st : SessionState) (fs : FS),
      ((runCycles cfg rc st fs inps).2.2).length = inps.length := by
  intro inps
  induction inps with
  | nil => intro rc st fs; simp [runCycles]
  | cons i rest ih =>
      intro rc st fs
      simp [runCycles, ih]

/-- `transcribe` reads and writes nothing but the same-stem `.txt` path:
every other file is untouched. -/
theorem transcribe_read?_ne (fs : FS) (p : FPath) (m l : String) (r : RecogResult)
    (q : FPath) (hq : q ≠ p.withSuffix ".txt") :
    ((transcribe fs p m l r).2.1).read? q = fs.read? q := by
  unfold transcribe
  cases ho : r.output with
  | none =>
      by_cases hrc : r.returncode ≠ 0
      · simp [hrc]
      · cases hread : fs.read? (p.withSuffix ".txt") with
        | none => simp [hrc, hread]
        | some c => simp [hrc, hread, FS.read?_unlink_ne _ _ _ hq]
  | some c =>
      by_cases hrc : r.returncode ≠ 0
      · simp [hrc, FS.read?_write_ne _ _ _ _ hq]
      · simp [hrc, FS.read?_unlink_ne _ _ _ hq, FS.read?_write_ne _ _ _ _ hq]

/-- After a zero-exit `transcribe` call, the same-stem `.txt` artifact does
not exist: either it was read and unlinked, or it never existed. -/
theorem transcribe_txt_absent_of_success (fs : FS) (p : FPath) (m l : String)
    (r : RecogResult) (h0 : r.returncode = 0) :
    (transcribe fs p m l r).2.1.read? (p.withSuffix ".txt") = none := by
  unfold transcribe
  cases ho : r.output with
  | none =>
      cases hread : fs.read? (p.withSuffix ".txt") with
      | none => simp [h0, hread]
      | some c => simp [h0, hread]
  | some c => simp [h0]

/-- `transcribe` does not change the directory set. -/
theorem transcribe_dirs (fs : FS) (p : FPath) (m l : String) (r : RecogResult) :
    ((transcribe fs p m l r).2.1).dirs = fs.dirs := by
  unfold transcribe
  cases ho : r.output with
  | none =>
      by_cases hrc : r.returncode ≠ 0
      · simp [hrc]
      · cases hread : fs.read? (p.withSuffix ".txt") with
        | none => simp [hrc, hread]
        | some c => simp [hrc, hread]
  | some c =>
      by_cases hrc : r.returncode ≠ 0
      · simp [hrc]
      · simp [hrc]

/-! ## Claims about the Recorder -/

/-- Claim C3 (confirmed): for every arm/disarm interval during which a
sequence of chunks is delivered to the capture callback, the buffer
returned by `Recorder.stop` is the concatenation of exactly those chunks in
delivery order, and its total sample count is the sum of the delivered
chunk lengths. -/
theorem recorder_drain_concat (rc : Recorder) (t : Int) (chunks : List Chunk) :
    (Recorder.stop (deliverAll (Recorder.start rc t) chunks)).1 = chunks.flatten ∧
    ((Recorder.stop (deliverAll (Recorder.start rc t) chunks)).1).length
      = (chunks.map List.length).sum := by
  rw [stop_deliver_start]
  exact ⟨rfl, List.length_flatten chunks⟩

/-- Claim C8 (counterexample): `Recorder.elapsed` does not return `0` after
a disarm completes.  `stop` clears the recording flag but not `_start_time`,
so after arming at time 5 and disarming, `elapsed` at time 7 is 2, not 0. -/
theorem elapsed_after_stop_counterexample :
    (((Recorder.init 48000).start 5).stop).2.recording = false ∧
    Recorder.elapsed (((Recorder.init 48000).start 5).stop).2 7 = 2 := by
  decide

/-- Claim C8 (amended): `elapsed` returns 0 in the initial state (before any
arm, when `_start_time` is 0); while armed after an arm at a non-zero clock
reading `t` it returns the wall-clock time since the arm; and after a disarm
it still returns the time since the last arm, because `stop` does not clear
`_start_time`. -/
theorem elapsed_behavior_amended (r : Recorder) (sr t now : Int) (ht : t ≠ 0) :
    Recorder.elapsed (Recorder.init sr) now = 0 ∧
    Recorder.elapsed (r.start t) now = now - t ∧
    Recorder.elapsed ((r.start t).stop).2 now = now - t := by
  refine ⟨by simp [Recorder.elapsed, Recorder.init], ?_, ?_⟩
  · simp [Recorder.elapsed, Recorder.start, ht]
  · simp [Recorder.elapsed, Recorder.start, Recorder.stop, ht]

/-- Witness for the amended C8 claim at the concrete clock readings 5/7. -/
theorem elapsed_behavior_amended_witness :
    (5 : Int) ≠ 0 ∧
    Recorder.elapsed (Recorder.init 48000) 7 = 0 ∧
    Recorder.elapsed ((Recorder.init 48000).start 5) 7 = 7 - 5 ∧
    Recorder.elapsed (((Recorder.init 48000).start 5).stop).2 7 = 7 - 5 := by
  refine ⟨by decide, ?_⟩
  have h := elapsed_behavior_amended (Recorder.init 48000) 48000 5 7 (by decide)
  exact ⟨h.1, h.2.1, h.2.2⟩

/-- Claim C9 (counterexample): calling `Recorder.start` while the recorder
is already armed is not reported as an error: on an armed recorder holding
one chunk, `start` silently empties the buffer, keeps the recording flag
set and restarts the stream. -/
theorem start_while_armed_counterexample :
    (Recorder.callback ((Recorder.init 48000).start 3) [1, 2]).recording = true ∧
    (Recorder.callback ((Recorder.init 48000).start 3) [1, 2]).audio_data = [[1, 2]] ∧
    ((Recorder.callback ((Recorder.init 48000).start 3) [1, 2]).start 9).audio_data = [] ∧
    ((Recorder.callback ((Recorder.init 48000).start 3) [1, 2]).start 9).recording = true ∧
    ((Recorder.callback ((Recorder.init 48000).start 3) [1, 2]).start 9).streamRunning
      = true := by
  decide

/-- Claim C9 (amended): calling `start` while the recorder is already armed
is not reported: it silently clears the buffer, re-arms capture, and the
previously buffered audio is lost — a subsequent disarm drains only the
chunks delivered after the second `start`. -/
theorem start_while_armed_silent_restart (r : Recorder) (now : Int)
    (chunks : List Chunk) (h : r.recording = true) :
    (r.start now).audio_data = [] ∧
    (r.start now).recording = true ∧
    (Recorder.stop (deliverAll (r.start now) chunks)).1 = chunks.flatten := by
  exact ⟨rfl, rfl, by rw [(stop_deliver_start r now chunks)]⟩

/-- Witness for the amended C9 claim: an armed recorder holding a chunk,
re-armed and then fed one new chunk. -/
theorem start_while_armed_silent_restart_witness :
    (Recorder.callback ((Recorder.init 48000).start 3) [1, 2]).recording = true ∧
    ((Recorder.callback ((Recorder.init 48000).start 3) [1, 2]).start 9).audio_data = [] ∧
    (Recorder.stop
      (deliverAll ((Recorder.callback ((Recorder.init 48000).start 3) [1, 2]).start 9)
        [[7]])).1 = [7] := by
  refine ⟨by decide, ?_, ?_⟩
  · exact (start_while_armed_silent_restart
      (Recorder.callback ((Recorder.init 48000).start 3) [1, 2]) 9 [[7]] (by decide)).1
  · exact (start_while_armed_silent_restart
      (Recorder.callback ((Recorder.init 48000).start 3) [1, 2]) 9 [[7]] (by decide)).2.2

/-! ## Claims about the transcription gateway -/

/-- Claim C1 (counterexample): it is not the case that neither the
temporary audio file nor the recognizer's same-stem text artifact exists at
the moment `transcribe` returns.  With the recognizer exiting 1 after
producing an artifact, both the audio file and the artifact still exist
when `transcribe` returns: the audio file is only deleted afterwards by the
caller, and the error path never deletes the artifact. -/
theorem transcribe_claim_cleanup_counterexample :
    (transcribe (FS.empty.write ⟨"/tmp", "rec", ".wav"⟩ "wav") ⟨"/tmp", "rec", ".wav"⟩
      "base" "en" ⟨1, "boom", some "hi"⟩).2.1.existsFile ⟨"/tmp", "rec", ".wav"⟩ = true ∧
    (transcribe (FS.empty.write ⟨"/tmp", "rec", ".wav"⟩ "wav") ⟨"/tmp", "rec", ".wav"⟩
      "base" "en" ⟨1, "boom", some "hi"⟩).2.1.existsFile
        (FPath.withSuffix ⟨"/tmp", "rec", ".wav"⟩ ".txt") = true := by
  decide

/-- Claim C1 (amended): at the moment `transcribe` returns, the temporary
audio file still exists — it is the caller that unlinks it immediately
afterwards, after which it no longer exists — and whenever the recognizer
exited with status zero the same-stem text artifact does not exist.  (On a
non-zero exit a produced artifact is not cleaned up.) -/
theorem transcribe_cleanup_amended (fs : FS) (p : FPath) (m l : String)
    (r : RecogResult) (hwav : fs.existsFile p = true) (hsuf : p.suffix = ".wav") :
    (transcribe fs p m l r).2.1.existsFile p = true ∧
    (((transcribe fs p m l r).2.1).unlink p).existsFile p = false ∧
    (r.returncode = 0 →
      (transcribe fs p m l r).2.1.existsFile (p.withSuffix ".txt") = false) := by
  have hne : p ≠ p.withSuffix ".txt" :=
    Ne.symm (FPath.withSuffix_ne p ".txt" (by rw [hsuf]; decide))
  refine ⟨?_, ?_, ?_⟩
  · rw [FS.existsFile_eq, transcribe_read?_ne fs p m l r p hne, ← FS.existsFile_eq]
    exact hwav
  · rw [FS.existsFile_eq, FS.read?_unlink_self]
    rfl
  · intro h0
    rw [FS.existsFile_eq, transcribe_txt_absent_of_success fs p m l r h0]
    rfl

/-- Witness for the amended C1 claim: a successful recognizer run on a
concrete one-file filesystem. -/
theorem transcribe_cleanup_amended_witness :
    (FS.empty.write ⟨"/tmp", "rec", ".wav"⟩ "wav").existsFile ⟨"/tmp", "rec", ".wav"⟩
      = true ∧
    (transcribe (FS.empty.write ⟨"/tmp", "rec", ".wav"⟩ "wav") ⟨"/tmp", "rec", ".wav"⟩
      "base" "en" ⟨0, "", some "hi"⟩).2.1.existsFile ⟨"/tmp", "rec", ".wav"⟩ = true ∧
    ((transcribe (FS.empty.write ⟨"/tmp", "rec", ".wav"⟩ "wav") ⟨"/tmp", "rec", ".wav"⟩
      "base" "en" ⟨0, "", some "hi"⟩).2.1.unlink ⟨"/tmp", "rec", ".wav"⟩).existsFile
        ⟨"/tmp", "rec", ".wav"⟩ = false ∧
    (transcribe (FS.empty.write ⟨"/tmp", "rec", ".wav"⟩ "wav") ⟨"/tmp", "rec", ".wav"⟩
      "base" "en" ⟨0, "", some "hi"⟩).2.1.existsFile
        (FPath.withSuffix ⟨"/tmp", "rec", ".wav"⟩ ".txt") = false := by
  have h := transcribe_cleanup_amended (FS.empty.write ⟨"/tmp", "rec", ".wav"⟩ "wav")
    ⟨"/tmp", "rec", ".wav"⟩ "base" "en" ⟨0, "", some "hi"⟩ (by decide) rfl
  exact ⟨by decide, h.1, h.2.1, h.2.2 rfl⟩

/-- Claim C6 (confirmed): when the recognizer process exits with a non-zero
status, `transcribe` returns the empty string and surfaces the recognizer's
stderr as a printed diagnostic (it returns normally rather than raising). -/
theorem transcribe_nonzero_exit_diagnostic (fs : FS) (p : FPath) (m l : String)
    (r : RecogResult) (h : r.returncode ≠ 0) :
    (transcribe fs p m l r).1 = "" ∧
    (transcribe fs p m l r).2.2 = ["Whisper error: " ++ r.stderr] := by
  unfold transcribe
  cases ho : r.output <;> simp [h]

/-- Witness for C6: recognizer exit code 1 with stderr content "x". -/
theorem transcribe_nonzero_exit_diagnostic_witness :
    ((1 : Int) ≠ 0) ∧
    (transcribe FS.empty ⟨"/tmp", "rec", ".wav"⟩ "base" "en" ⟨1, "x", none⟩).1 = "" ∧
    (transcribe FS.empty ⟨"/tmp", "rec", ".wav"⟩ "base" "en" ⟨1, "x", none⟩).2.2
      = ["Whisper error: " ++ "x"] := by
  have h := transcribe_nonzero_exit_diagnostic FS.empty ⟨"/tmp", "rec", ".wav"⟩
    "base" "en" ⟨1, "x", none⟩ (by decide)
  exact ⟨by decide, h.1, h.2⟩

/-- Claim C7 (counterexample): when the recognizer exits with status zero
but the expected text artifact is absent, `transcribe` returns the empty
string but prints no diagnostic at all — the diagnostics list is empty, so
no failure detail is surfaced, unlike the non-zero-exit case. -/
theorem transcribe_missing_artifact_claim_counterexample :
    (transcribe (FS.empty.write ⟨"/tmp", "rec", ".wav"⟩ "wav") ⟨"/tmp", "rec", ".wav"⟩
      "base" "en" ⟨0, "", none⟩).1 = "" ∧
    (transcribe (FS.empty.write ⟨"/tmp", "rec", ".wav"⟩ "wav") ⟨"/tmp", "rec", ".wav"⟩
      "base" "en" ⟨0, "", none⟩).2.2 = [] := by
  decide

/-- Claim C7 (amended): when the recognizer exits with status zero and the
expected same-stem artifact does not exist, `transcribe` returns the empty
string, leaves the filesystem unchanged, and emits no diagnostic of its own
(the caller later reports a generic failure message on empty text). -/
theorem transcribe_missing_artifact_silent_empty (fs : FS) (p : FPath)
    (m l : String) (r : RecogResult) (h0 : r.returncode = 0)
    (hout : r.output = none) (habs : fs.read? (p.withSuffix ".txt") = none) :
    transcribe fs p m l r = ("", fs, []) := by
  unfold transcribe
  simp [hout, h0, habs]

/-- Witness for the amended C7 claim on a concrete one-file filesystem. -/
theorem transcribe_missing_artifact_silent_empty_witness :
    (FS.empty.write ⟨"/tmp", "rec", ".wav"⟩ "wav").read?
      (FPath.withSuffix ⟨"/tmp", "rec", ".wav"⟩ ".txt") = none ∧
    transcribe (FS.empty.write ⟨"/tmp", "rec", ".wav"⟩ "wav") ⟨"/tmp", "rec", ".wav"⟩
      "base" "en" ⟨0, "", none⟩
      = ("", FS.empty.write ⟨"/tmp", "rec", ".wav"⟩ "wav", []) := by
  refine ⟨by decide, ?_⟩
  exact transcribe_missing_artifact_silent_empty
    (FS.empty.write ⟨"/tmp", "rec", ".wav"⟩ "wav") ⟨"/tmp", "rec", ".wav"⟩
    "base" "en" ⟨0, "", none⟩ rfl rfl (by decide)

/-! ## Lemmas about the controller cycle -/

/-- Creating directories does not change any file. -/
@[simp]
theorem FS.read?_mkdirParents (fs : FS) (d : String) (p : FPath) :
    (fs.mkdirParents d).read? p = fs.read? p := rfl

/-- `save_transcription` appends exactly one timestamped record to the log
file (creating it when absent). -/
theorem save_transcription_read? (t : String) (o : FPath) (ts : String) (fs : FS) :
    (save_transcription t o ts fs).read? o
      = some (((fs.read? o).getD "") ++ logRecord ts t) := by
  unfold save_transcription
  split <;> simp [FS.mkdirParents, FS.read?, FS.write]

/-- `save_transcription` leaves every other file unchanged. -/
theorem save_transcription_read?_ne (t : String) (o q : FPath) (ts : String)
    (fs : FS) (hq : q ≠ o) :
    (save_transcription t o ts fs).read? q = fs.read? q := by
  unfold save_transcription
  split <;> simp [FS.mkdirParents, FS.read?, FS.write, hq]

/-- After `save_transcription` the log file's parent directory exists. -/
theorem save_transcription_dirExists (t : String) (o : FPath) (ts : String) (fs : FS) :
    (save_transcription t o ts fs).dirExists o.parent = true := by
  unfold save_transcription
  split
  · rename_i h
    simpa [FS.dirExists, FS.write] using h
  · simp [FS.dirExists, FS.mkdirParents, FS.write]

/-! ## Claims about the controller cycle -/

/-- Claim C4 (confirmed): in a cycle whose drained buffer is empty, the
controller prints the no-audio report and continues with the session state
and filesystem untouched: no gateway call and no temporary file creation
occur (neither event appears in the cycle's trace). -/
theorem cycle_empty_audio_skips_transcription (cfg : Config) (rc : Recorder)
    (st : SessionState) (fs : FS) (inp : CycleInput)
    (h : inp.chunks.flatten = []) :
    (cycle cfg rc st fs inp).st = st ∧
    (cycle cfg rc st fs inp).fs = fs ∧
    (cycle cfg rc st fs inp).events = [Event.printed "No audio detected!"] ∧
    (∀ p, Event.transcribeCalled p ∉ (cycle cfg rc st fs inp).events) ∧
    (∀ p, Event.tempWritten p ∉ (cycle cfg rc st fs inp).events) := by
  have hc : cycle cfg rc st fs inp =
      ⟨{ samplerate := rc.samplerate, recording := false, audio_data := inp.chunks,
         start_time := inp.tStart, streamRunning := false },
       st, fs, [Event.printed "No audio detected!"]⟩ := by
    simp [cycle, stop_deliver_start, h]
  rw [hc]
  refine ⟨rfl, rfl, rfl, ?_, ?_⟩ <;> intro p <;> simp

/-- Witness for C4: a cycle with no delivered chunks leaves everything
untouched and reports no audio. -/
theorem cycle_empty_audio_skips_transcription_witness :
    (([] : List Chunk).flatten = []) ∧
    (cycle ⟨"base", "en", false, none⟩ (Recorder.init 48000) ⟨[], ""⟩ FS.empty
      ⟨[], ⟨0, "", none⟩, ⟨"/tmp", "rec", ".wav"⟩, 5, "T"⟩).st = ⟨[], ""⟩ ∧
    (cycle ⟨"base", "en", false, none⟩ (Recorder.init 48000) ⟨[], ""⟩ FS.empty
      ⟨[], ⟨0, "", none⟩, ⟨"/tmp", "rec", ".wav"⟩, 5, "T"⟩).events
      = [Event.printed "No audio detected!"] := by
  have h := cycle_empty_audio_skips_transcription ⟨"base", "en", false, none⟩
    (Recorder.init 48000) ⟨[], ""⟩ FS.empty
    ⟨[], ⟨0, "", none⟩, ⟨"/tmp", "rec", ".wav"⟩, 5, "T"⟩ (by decide)
  exact ⟨rfl, h.1, h.2.2.1⟩

/-- Claim C2 (confirmed): in a cycle producing non-empty text, with the
append flag on the text is appended to the session transcript sequence and
the clipboard is set to the newline-join of the whole sequence in order;
with the flag off the clipboard is set to the cycle's text alone and the
sequence is untouched. -/
theorem cycle_clipboard_append_policy (cfg : Config) (rc : Recorder)
    (st : SessionState) (fs : FS) (inp : CycleInput) (t : String)
    (haudio : inp.chunks.flatten ≠ [])
    (htext : (transcribe (fs.write inp.tempPath (wavContent inp.chunks.flatten))
        inp.tempPath cfg.model cfg.lang inp.recog).1 = t)
    (ht : t ≠ "") :
    (cfg.append = true →
      (cycle cfg rc st fs inp).st.transcripts = st.transcripts ++ [t] ∧
      (cycle cfg rc st fs inp).st.clipboard
        = String.intercalate "\n" (st.transcripts ++ [t])) ∧
    (cfg.append = false →
      (cycle cfg rc st fs inp).st.clipboard = t ∧
      (cycle cfg rc st fs inp).st.transcripts = st.transcripts) := by
  have hlen : ¬((List.map List.length inp.chunks).sum = 0) := by
    intro h0
    apply haudio
    apply List.eq_nil_of_length_eq_zero
    rw [List.length_flatten]
    exact h0
  constructor <;> intro hap <;>
    constructor <;>
      simp [cycle, stop_deliver_start, hlen, htext, ht, hap]

/-- Witness for C2: with "hello" already accepted and append mode on, a
cycle transcribing "world" sets the clipboard to the newline-join. -/
theorem cycle_clipboard_append_policy_witness :
    (cycle ⟨"base", "en", true, none⟩ (Recorder.init 48000) ⟨["hello"], "hello"⟩
      FS.empty ⟨[[1]], ⟨0, "", some "world"⟩, ⟨"/tmp", "rec", ".wav"⟩, 5, "T"⟩).st.transcripts
      = ["hello", "world"] ∧
    (cycle ⟨"base", "en", true, none⟩ (Recorder.init 48000) ⟨["hello"], "hello"⟩
      FS.empty ⟨[[1]], ⟨0, "", some "world"⟩, ⟨"/tmp", "rec", ".wav"⟩, 5, "T"⟩).st.clipboard
      = "hello\nworld" := by
  have h := cycle_clipboard_append_policy ⟨"base", "en", true, none⟩
    (Recorder.init 48000) ⟨["hello"], "hello"⟩ FS.empty
    ⟨[[1]], ⟨0, "", some "world"⟩, ⟨"/tmp", "rec", ".wav"⟩, 5, "T"⟩ "world"
    (by decide) (by decide) (by decide)
  exact ⟨(h.1 rfl).1, ((h.1 rfl).2).trans (by decide)⟩

/-- Claim C5 (confirmed): in a cycle where `transcribe` returns empty text,
the controller prints the failure report, the session state (transcript
sequence and clipboard) is unchanged, the log file (any path other than the
fresh temporary file and its same-stem artifact) is unchanged, and the loop
goes on to process every subsequent cycle. -/
theorem cycle_empty_text_no_mutation (cfg : Config) (rc : Recorder)
    (st : SessionState) (fs : FS) (inp : CycleInput) (rests : List CycleInput)
    (haudio : inp.chunks.flatten ≠ [])
    (htext : (transcribe (fs.write inp.tempPath (wavContent inp.chunks.flatten))
        inp.tempPath cfg.model cfg.lang inp.recog).1 = "") :
    (cycle cfg rc st fs inp).st = st ∧
    (∀ o : FPath, o ≠ inp.tempPath → o ≠ inp.tempPath.withSuffix ".txt" →
      (cycle cfg rc st fs inp).fs.read? o = fs.read? o) ∧
    Event.printed "Transcription failed or no content!" ∈ (cycle cfg rc st fs inp).events ∧
    ((runCycles cfg rc st fs (inp :: rests)).2.2).length = rests.length + 1 := by
  have hlen : ¬((List.map List.length inp.chunks).sum = 0) := by
    intro h0
    apply haudio
    apply List.eq_nil_of_length_eq_zero
    rw [List.length_flatten]
    exact h0
  have hc : cycle cfg rc st fs inp =
      ⟨{ samplerate := rc.samplerate, recording := false, audio_data := inp.chunks,
         start_time := inp.tStart, streamRunning := false },
       st,
       ((transcribe (fs.write inp.tempPath (wavContent inp.chunks.flatten))
         inp.tempPath cfg.model cfg.lang inp.recog).2.1).unlink inp.tempPath,
       [Event.tempWritten inp.tempPath, Event.transcribeCalled inp.tempPath]
         ++ ((transcribe (fs.write inp.tempPath (wavContent inp.chunks.flatten))
              inp.tempPath cfg.model cfg.lang inp.recog).2.2).map Event.printedErr
         ++ [Event.printed "Transcription failed or no content!"]⟩ := by
    simp [cycle, stop_deliver_start, hlen, htext]
  refine ⟨by rw [hc], ?_, ?_, ?_⟩
  · intro o h1 h2
    rw [hc]
    show (((transcribe (fs.write inp.tempPath (wavContent inp.chunks.flatten))
      inp.tempPath cfg.model cfg.lang inp.recog).2.1).unlink inp.tempPath).read? o
      = fs.read? o
    rw [FS.read?_unlink_ne _ _ _ h1,
      transcribe_read?_ne _ _ _ _ _ _ h2,
      FS.read?_write_ne _ _ _ _ h1]
  · rw [hc]; simp
  · rw [runCycles_trace_length]
    simp

/-- Witness for C5: a recognizer failure (exit 1, stderr "x") leaves the
session state alone and the loop processes the (empty) remainder. -/
theorem cycle_empty_text_no_mutation_witness :
    (cycle ⟨"base", "en", true, none⟩ (Recorder.init 48000) ⟨["hello"], "hello"⟩
      FS.empty ⟨[[1]], ⟨1, "x", none⟩, ⟨"/tmp", "rec", ".wav"⟩, 5, "T"⟩).st
      = ⟨["hello"], "hello"⟩ ∧
    Event.printed "Transcription failed or no content!"
      ∈ (cycle ⟨"base", "en", true, none⟩ (Recorder.init 48000) ⟨["hello"], "hello"⟩
        FS.empty ⟨[[1]], ⟨1, "x", none⟩, ⟨"/tmp", "rec", ".wav"⟩, 5, "T"⟩).events ∧
    ((runCycles ⟨"base", "en", true, none⟩ (Recorder.init 48000) ⟨["hello"], "hello"⟩
      FS.empty [⟨[[1]], ⟨1, "x", none⟩, ⟨"/tmp", "rec", ".wav"⟩, 5, "T"⟩]).2.2).length
      = 1 := by
  have h := cycle_empty_text_no_mutation ⟨"base", "en", true, none⟩
    (Recorder.init 48000) ⟨["hello"], "hello"⟩ FS.empty
    ⟨[[1]], ⟨1, "x", none⟩, ⟨"/tmp", "rec", ".wav"⟩, 5, "T"⟩ [] (by decide) (by decide)
  exact ⟨h.1, h.2.2.1, h.2.2.2⟩

/-- Claim C10 (confirmed): in a log-configured cycle producing non-empty
text, exactly one timestamped record of the form given by `logRecord` is
appended to the log file's previous contents, the log file's parent
directory exists afterwards (created if absent), and the save is recorded
in the cycle's trace. -/
theorem cycle_log_append_record (cfg : Config) (rc : Recorder)
    (st : SessionState) (fs : FS) (inp : CycleInput) (o : FPath) (t : String)
    (ho : cfg.output = some o)
    (haudio : inp.chunks.flatten ≠ [])
    (htext : (transcribe (fs.write inp.tempPath (wavContent inp.chunks.flatten))
        inp.tempPath cfg.model cfg.lang inp.recog).1 = t)
    (ht : t ≠ "")
    (h1 : o ≠ inp.tempPath) (h2 : o ≠ inp.tempPath.withSuffix ".txt") :
    (cycle cfg rc st fs inp).fs.read? o
      = some (((fs.read? o).getD "") ++ logRecord inp.timestamp t) ∧
    (cycle cfg rc st fs inp).fs.dirExists o.parent = true ∧
    Event.savedLog o ∈ (cycle cfg rc st fs inp).events := by
  have hlen : ¬((List.map List.length inp.chunks).sum = 0) := by
    intro h0
    apply haudio
    apply List.eq_nil_of_length_eq_zero
    rw [List.length_flatten]
    exact h0
  have hfs3 : (((transcribe (fs.write inp.tempPath (wavContent inp.chunks.flatten))
      inp.tempPath cfg.model cfg.lang inp.recog).2.1).unlink inp.tempPath).read? o
      = fs.read? o := by
    rw [FS.read?_unlink_ne _ _ _ h1,
      transcribe_read?_ne _ _ _ _ _ _ h2,
      FS.read?_write_ne _ _ _ _ h1]
  have hcfs : (cycle cfg rc st fs inp).fs =
      save_transcription t o inp.timestamp
        (((transcribe (fs.write inp.tempPath (wavContent inp.chunks.flatten))
          inp.tempPath cfg.model cfg.lang inp.recog).2.1).unlink inp.tempPath) := by
    simp [cycle, stop_deliver_start, hlen, htext, ht, ho]
  have hcev : Event.savedLog o ∈ (cycle cfg rc st fs inp).events := by
    simp [cycle, stop_deliver_start, hlen, htext, ht, ho]
  refine ⟨?_, ?_, hcev⟩
  · rw [hcfs, save_transcription_read?, hfs3]
  · rw [hcfs]
    exact save_transcription_dirExists _ _ _ _

/-- Witness for C10: one successful cycle with a configured log path
appends one record to the (initially absent) log file and creates its
parent directory. -/
theorem cycle_log_append_record_witness :
    (cycle ⟨"base", "en", false, some ⟨"/home", "log", ".txt"⟩⟩ (Recorder.init 48000)
      ⟨[], ""⟩ FS.empty
      ⟨[[1]], ⟨0, "", some "hello"⟩, ⟨"/tmp", "rec", ".wav"⟩, 5, "T"⟩).fs.read?
        ⟨"/home", "log", ".txt"⟩
      = some (((FS.empty.read? ⟨"/home", "log", ".txt"⟩).getD "") ++ logRecord "T" "hello") ∧
    (cycle ⟨"base", "en", false, some ⟨"/home", "log", ".txt"⟩⟩ (Recorder.init 48000)
      ⟨[], ""⟩ FS.empty
      ⟨[[1]], ⟨0, "", some "hello"⟩, ⟨"/tmp", "rec", ".wav"⟩, 5, "T"⟩).fs.dirExists "/home"
      = true := by
  have h := cycle_log_append_record ⟨"base", "en", false, some ⟨"/home", "log", ".txt"⟩⟩
    (Recorder.init 48000) ⟨[], ""⟩ FS.empty
    ⟨[[1]], ⟨0, "", some "hello"⟩, ⟨"/tmp", "rec", ".wav"⟩, 5, "T"⟩
    ⟨"/home", "log", ".txt"⟩ "hello" rfl (by decide) (by decide) (by decide)
    (by decide) (by decide)
  exact ⟨h.1, h.2.1⟩

end STT
